import Mathlib

/-!
# Verification of `src/app_lufthansa.py`

Shallow embedding of the Lufthansa Streamlit dashboard.  Pure functions of the
script become Lean functions; the Streamlit `st.cache_data` layer becomes an
explicit cache state threaded through calls; Python exceptions become `Except`
values.  JSON numbers are modelled as integers: no code path of the script
computes with a numeric field, it only copies values around.
-/

set_option autoImplicit false

namespace AppLufthansa

/-- JSON values as produced by the Python JSON decoders (`requests.Response.json`,
`aiohttp.ClientResponse.json`).  An `obj` is an already-parsed Python dict, so its
field list is assumed to carry distinct keys (the decoder keeps the last value for
a duplicated key while building the dict). -/
inductive Json where
  | null
  | bool (b : Bool)
  | num (n : Int)
  | str (s : String)
  | arr (items : List Json)
  | obj (fields : List (String × Json))

/-- Python exceptions that the modelled code paths can raise. -/
inductive PyError where
  /-- `KeyError` from `d[k]` on a dict missing `k`; carries the key. -/
  | keyError (k : String)
  /-- `AttributeError`, e.g. `.get` called on a value that is not a dict. -/
  | attributeError
  /-- `TypeError`, e.g. indexing a list with a string, or hashing a dict. -/
  | typeError
  /-- body of an HTTP response that does not parse as JSON. -/
  | jsonDecodeError
  deriving DecidableEq

/-- First-match association-list lookup; on a Python dict (distinct keys) this is
exactly `d[k]` / `k in d` membership. -/
def pyLookup {κ β : Type} [DecidableEq κ] : List (κ × β) → κ → Option β
  | [], _ => none
  | (k, v) :: d, k0 => if k = k0 then some v else pyLookup d k0

/-- One Python dict assignment `d[k] = v`: replace the value in place when the key
is present, append the pair otherwise. -/
def pyDictInsert {κ β : Type} [DecidableEq κ] : List (κ × β) → κ → β → List (κ × β)
  | [], k, v => [(k, v)]
  | (k0, v0) :: d, k, v => if k0 = k then (k, v) :: d else (k0, v0) :: pyDictInsert d k v

/-- Build a Python dict from a list of key/value pairs, as `dict(pairs)` or a dict
comprehension does: pairs are inserted left to right, so a repeated key keeps the
value of its last pair. -/
def pyDict {κ β : Type} [DecidableEq κ] (ps : List (κ × β)) : List (κ × β) :=
  ps.foldl (fun d p => pyDictInsert d p.1 p.2) []

/-- An HTTP response as the script sees it: a status code and a body.  `body = none`
models a body that is not valid JSON (so `.json()` raises). -/
structure HttpResponse where
  status : Nat
  body : Option Json

/-- `resp.json()`: returns the parsed body or raises when it is not JSON. -/
def jsonOf (resp : HttpResponse) : Except PyError Json :=
  match resp.body with
  | some j => .ok j
  | none => .error .jsonDecodeError

namespace Json

/-- Python `d.get(k)` (no default): `none` when the key is missing; raises
`AttributeError` when the receiver is not a dict. -/
def get : Json → String → Except PyError (Option Json)
  | .obj fs, k => .ok (pyLookup fs k)
  | _, _ => .error .attributeError

/-- Python `d.get(k, default)`: the stored value, or `default` when the key is
missing; raises `AttributeError` when the receiver is not a dict. -/
def getD : Json → String → Json → Except PyError Json
  | .obj fs, k, d => .ok ((pyLookup fs k).getD d)
  | _, _, _ => .error .attributeError

/-- Python `d[k]` with a string key: `KeyError` on a dict missing the key,
`TypeError` on any non-dict value (string/list indices must be integers; `null`
and numbers are not subscriptable). -/
def idx : Json → String → Except PyError Json
  | .obj fs, k =>
      match pyLookup fs k with
      | some v => .ok v
      | none => .error (.keyError k)
  | _, _ => .error .typeError

/-- Python iteration `for a in x`: a list yields its items, a dict its keys, a
string its characters; other values are not iterable (`TypeError`). -/
def pyIter : Json → Except PyError (List Json)
  | .arr xs => .ok xs
  | .obj fs => .ok (fs.map fun p => Json.str p.1)
  | .str s => .ok (s.toList.map fun c => Json.str (String.singleton c))
  | _ => .error .typeError

/-- Whether a value may be used as a Python dict key / membership probe: lists and
dicts are unhashable (`TypeError`). -/
def hashableKey : Json → Bool
  | .arr _ => false
  | .obj _ => false
  | _ => true

/-- Python truth test `not x` (negated): `None`, `0`, `""`, `[]` and `` empty dict ``
are falsy, everything else the script handles is truthy. -/
def pyFalsy : Json → Bool
  | .null => true
  | .bool b => !b
  | .num n => n == 0
  | .str s => s.isEmpty
  | .arr xs => xs.isEmpty
  | .obj fs => fs.isEmpty

/-- Python `str()` as applied by the f-string building a route label.  The cells
reaching that f-string are JSON strings (airline code, flight number); containers
would render via their `repr`, which no claim exercises and which is abbreviated
here. -/
def pyStr : Json → String
  | .null => "None"
  | .bool b => if b then "True" else "False"
  | .num n => toString n
  | .str s => s
  | .arr _ => "[...]"
  | .obj _ => "dict"

end Json

/-- `get_token` (src/app_lufthansa.py lines 13-21), as a function of the HTTP
response the token endpoint sends back: `return r.json().get("access_token")`.
The status code is never inspected. -/
def get_token (resp : HttpResponse) : Except PyError (Option Json) := do
  let data ← jsonOf resp
  data.get "access_token"

/-- `get_flights` (lines 31-39): on status 200 parse the body and walk
`data.get("FlightStatusResource", {}).get("Flights", {}).get("Flight", [])`;
on any other status return `[]` without touching the body. -/
def get_flights (resp : HttpResponse) : Except PyError Json :=
  if resp.status = 200 then do
    let data ← jsonOf resp
    let res ← data.getD "FlightStatusResource" (.obj [])
    let fl ← res.getD "Flights" (.obj [])
    fl.getD "Flight" (.arr [])
  else
    .ok (.arr [])

/-- A dict key extracted from a JSON value.  A Python dict key must be hashable, so
a list or dict raises `TypeError`; every airport display name in this feed is a JSON
string and only that case is modelled (a non-string scalar key does not occur). -/
def Json.asKeyString : Json → Except PyError String
  | .str s => .ok s
  | _ => .error .typeError

/-- One step of the dict comprehension in `get_airports` (line 29): for a record `a`,
evaluate the key `a["Names"]["Name"]["$"]` and the value `a["AirportCode"]`. -/
def extractAirport (a : Json) : Except PyError (String × Json) := do
  let names ← a.idx "Names"
  let nm ← names.idx "Name"
  let disp ← nm.idx "$"
  let key ← disp.asKeyString
  let code ← a.idx "AirportCode"
  pure (key, code)

/-- The dict comprehension loop of `get_airports`: evaluate key and value for each
record in order, propagating the first exception. -/
def extractAirports : List Json → Except PyError (List (String × Json))
  | [] => .ok []
  | a :: rest => do
      let p ← extractAirport a
      let ps ← extractAirports rest
      pure (p :: ps)

/-- `get_airports` (lines 23-29), as a function of the HTTP response the reference
endpoint sends back: parse the body (the status is never inspected), index the fixed
path `data["AirportResource"]["Airports"]["Airport"]` — bracket indexing, so a
missing key raises `KeyError` — then build the name→code dict by comprehension. -/
def get_airports (resp : HttpResponse) : Except PyError (List (String × Json)) := do
  let data ← jsonOf resp
  let res ← data.idx "AirportResource"
  let airports ← res.idx "Airports"
  let records ← airports.idx "Airport"
  let items ← records.pyIter
  let pairs ← extractAirports items
  pure (pyDict pairs)

/-- One row of the local `airports.csv` reference file, with the three columns the
script reads.  The numeric cells are opaque to the script (they are only copied into
route endpoints), so they are modelled as integers. -/
structure CsvRow where
  iata : String
  longitude : Int
  latitude : Int

/-- The airport→(longitude, latitude) table: `List (iata, (lon, lat))`. -/
def CoordTable : Type := List (String × (Int × Int))

/-- `get_coords` (lines 41-44), as a function of the rows of `airports.csv`:
`dict(zip(df["IATA"], zip(df["Longitude"], df["Latitude"])))` — a dict built from
(IATA, (lon, lat)) pairs in file order, so a duplicated IATA keeps its last row. -/
def get_coords (csv : List CsvRow) : CoordTable :=
  pyDict (csv.map fun r => (r.iata, (r.longitude, r.latitude)))

/-- State of one `st.cache_data` entry: absent, or a value with the time it was
stored.  `get_token` and `get_coords` take no arguments, so their caches hold a
single entry. -/
structure CacheState (α : Type) where
  entry : Option (α × Nat)

/-- One call through an `st.cache_data(ttl=ttl)` wrapper at wall-clock time `now`:
serve the stored value while it is younger than `ttl` seconds; otherwise run the
wrapped computation, store its value (exceptions are not cached) and report that the
computation ran (third component `true` = the underlying request/load happened). -/
def cachedCall {ε α : Type} (ttl : Nat) (compute : Unit → Except ε α)
    (c : CacheState α) (now : Nat) : Except ε α × CacheState α × Bool :=
  match c.entry with
  | some (v, t) =>
      if now < t + ttl then (.ok v, c, false)
      else
        match compute () with
        | .ok v2 => (.ok v2, ⟨some (v2, now)⟩, true)
        | .error e => (.error e, c, true)
  | none =>
      match compute () with
      | .ok v2 => (.ok v2, ⟨some (v2, now)⟩, true)
      | .error e => (.error e, c, true)

/-- `get_token` behind its `@st.cache_data(ttl=300)` decorator (line 13).  `resp` is
the response the token endpoint would send to a request made now. -/
def get_token_cached (resp : HttpResponse) (c : CacheState (Option Json)) (now : Nat) :
    Except PyError (Option Json) × CacheState (Option Json) × Bool :=
  cachedCall 300 (fun _ => get_token resp) c now

/-- `get_coords` behind its `@st.cache_data(ttl=86400)` decorator (line 41).  `csv`
is the content `airports.csv` would have when read now. -/
def get_coords_cached (csv : List CsvRow) (c : CacheState CoordTable) (now : Nat) :
    Except PyError CoordTable × CacheState CoordTable × Bool :=
  cachedCall 86400 (fun _ => .ok (get_coords csv)) c now

/-- One row of the reshaped dataframe (lines 99-106): the seven projected columns,
renamed `Départ, Heure départ, Arrivée, Heure arrivée, Compagnie, Vol, Statut`. -/
structure Row where
  depart : Json
  heureDepart : Json
  arrivee : Json
  heureArrivee : Json
  compagnie : Json
  vol : Json
  statut : Json

/-- The cells of a row in display-column order. -/
def Row.cells (r : Row) : List Json :=
  [r.depart, r.heureDepart, r.arrivee, r.heureArrivee, r.compagnie, r.vol, r.statut]

/-- The seven flattened source columns selected on lines 100-105, in order. -/
def selectedColumns : List String :=
  ["Departure.AirportCode", "Departure.ScheduledTimeLocal.DateTime",
   "Arrival.AirportCode", "Arrival.ScheduledTimeLocal.DateTime",
   "OperatingCarrier.AirlineID", "OperatingCarrier.FlightNumber",
   "FlightStatus.Status.Description"]

/-- The display names the columns are renamed to on line 106, in the same order. -/
def displayColumns : List String :=
  ["Départ", "Heure départ", "Arrivée", "Heure arrivée", "Compagnie", "Vol", "Statut"]

/-- The reshape of one flight record: `pd.json_normalize` flattens the nested dicts
into dot-joined columns and `df[[...]]` (lines 100-105) projects the seven listed
ones, in order.  Modelled per record: each of the seven nested paths is read, and a
record missing one fails the projection (pandas raises `KeyError` for a column that
no record supplies; a record-by-record model agrees whenever the claims quantify
over records that carry all seven fields). -/
def reshapeFlight (f : Json) : Except PyError Row := do
  let dep ← f.idx "Departure"
  let depCode ← dep.idx "AirportCode"
  let depSched ← dep.idx "ScheduledTimeLocal"
  let depTime ← depSched.idx "DateTime"
  let arr ← f.idx "Arrival"
  let arrCode ← arr.idx "AirportCode"
  let arrSched ← arr.idx "ScheduledTimeLocal"
  let arrTime ← arrSched.idx "DateTime"
  let carrier ← f.idx "OperatingCarrier"
  let airlineId ← carrier.idx "AirlineID"
  let flightNo ← carrier.idx "FlightNumber"
  let stat ← f.idx "FlightStatus"
  let stat2 ← stat.idx "Status"
  let desc ← stat2.idx "Description"
  pure ⟨depCode, depTime, arrCode, arrTime, airlineId, flightNo, desc⟩

/-- Reshape every record of the flight list in order. -/
def reshapeFlights : List Json → Except PyError (List Row)
  | [] => .ok []
  | f :: rest => do
      let r ← reshapeFlight f
      let rs ← reshapeFlights rest
      pure (r :: rs)

/-- `pd.json_normalize(flights)` followed by the column projection (line 99-106):
a list is one record per item, a single dict is one record; other values are not
normalizable. -/
def reshape (flights : Json) : Except PyError (List Row) :=
  match flights with
  | .arr xs => reshapeFlights xs
  | .obj fs => reshapeFlights [.obj fs]
  | _ => .error .typeError

/-- One route segment of the map layer (lines 52-58). -/
structure Route where
  from_lon : Int
  from_lat : Int
  to_lon : Int
  to_lat : Int
  flight : String

/-- The tooltip label built on line 57: the f-string over the `Compagnie` and `Vol`
cells, concatenated with a single space. -/
def flightLabel (r : Row) : String :=
  Json.pyStr r.compagnie ++ " " ++ Json.pyStr r.vol

/-- Membership probe `x in coords` followed by `coords[x]`: the coordinate dict is
keyed by the IATA strings of the CSV, so only a string cell can match. -/
def coordLookup (coords : CoordTable) : Json → Option (Int × Int)
  | .str s => pyLookup coords s
  | _ => none

/-- One iteration of the route loop (lines 49-58) for a row: the test
`dep in coords and arr in coords` short-circuits, an unhashable cell raises
`TypeError`, and a passing row yields the segment with both coordinate pairs copied
from the table and the f-string label. -/
def rowRoute (coords : CoordTable) (r : Row) : Except PyError (Option Route) :=
  if !r.depart.hashableKey then .error .typeError
  else
    match coordLookup coords r.depart with
    | none => .ok none
    | some d =>
        if !r.arrivee.hashableKey then .error .typeError
        else
          match coordLookup coords r.arrivee with
          | none => .ok none
          | some a => .ok (some ⟨d.1, d.2, a.1, a.2, flightLabel r⟩)

/-- The route-building loop of `show_map` (lines 48-58): one pass over the rows,
appending a segment for each row both of whose endpoint codes resolve. -/
def show_map_routes (coords : CoordTable) : List Row → Except PyError (List Route)
  | [] => .ok []
  | r :: rest => do
      let o ← rowRoute coords r
      let rs ← show_map_routes coords rest
      pure
        (match o with
         | some seg => seg :: rs
         | none => rs)

/-- What a render pass emits; used to state which widgets are drawn. -/
inductive Effect where
  | errorText (s : String)
  | warningText (s : String)
  | markdownText (s : String)
  | dataframeTable (rows : List Row)
  | mapChart (routes : List Route)
  | downloadCsv (rows : List Row) (filename : String)

/-- `show_map` (lines 46-73) as the effects it emits: build the routes, warn when
none resolve, otherwise draw the line layer. -/
def show_map (coords : CoordTable) (rows : List Row) : Except PyError (List Effect) := do
  let routes ← show_map_routes coords rows
  if routes.isEmpty then
    pure [.warningText "Aucune coordonnée trouvée pour les aéroports."]
  else
    pure [.mapChart routes]

/-- The flight section of `main` after the fetch (lines 96-111), as a function of
the value `get_flights` returned and of the coordinate table `show_map` will load:
an empty (falsy) result emits only the warning and returns before any reshape,
route-building or export; otherwise the table is drawn, the map section runs, and
the CSV download of the reshaped table is offered. -/
def render_flight_section (coords : CoordTable) (flights : Json) :
    Except PyError (List Effect) :=
  if flights.pyFalsy then .ok [.warningText "Aucun vol trouvé."]
  else do
    let rows ← reshape flights
    let mapEffects ← show_map coords rows
    pure ([.dataframeTable rows, .markdownText "### 🗺 Carte des vols"]
      ++ mapEffects ++ [.downloadCsv rows "vols.csv"])

/-- Modelled from the spec, for the refinement claim about route-building: "exactly
one route segment per table row whose departure code and arrival code both have
entries in the coordinate table, and no segment for any other row; each segment
carries the (longitude, latitude) pair of both endpoints copied verbatim from the
coordinate table, and its display label is the carrier code and flight number
concatenated with a single space" — a filter of the rows followed by a projection. -/
def routeSegmentsSpec (coords : CoordTable) (rows : List Row) : List Route :=
  (rows.filter fun r =>
      (coordLookup coords r.depart).isSome && (coordLookup coords r.arrivee).isSome).map
    fun r =>
      { from_lon := ((coordLookup coords r.depart).getD (0, 0)).1
        from_lat := ((coordLookup coords r.depart).getD (0, 0)).2
        to_lon := ((coordLookup coords r.arrivee).getD (0, 0)).1
        to_lat := ((coordLookup coords r.arrivee).getD (0, 0)).2
        flight := flightLabel r }

/-- An airport record shaped as the reference endpoint returns it, from a
(display name, IATA code) pair. -/
def mkAirportRec (p : String × String) : Json :=
  .obj [("Names", .obj [("Name", .obj [("$", .str p.1)])]),
        ("AirportCode", .str p.2)]

/-- A reference-endpoint response carrying the given (name, code) records. -/
def mkAirportsResp (rs : List (String × String)) : HttpResponse :=
  ⟨200, some (.obj [("AirportResource",
      .obj [("Airports", .obj [("Airport", .arr (rs.map mkAirportRec))])])])⟩

/-- The (name, code) pairs the `get_airports` comprehension extracts from the
records of `mkAirportsResp`. -/
def airportPairs (rs : List (String × String)) : List (String × Json) :=
  rs.map fun p => (p.1, .str p.2)

/-- A flight record carrying all seven fields the reshape projects. -/
def sampleFlight : Json :=
  .obj [("Departure", .obj [("AirportCode", .str "FRA"),
          ("ScheduledTimeLocal", .obj [("DateTime", .str "2025-01-01T10:00")])]),
        ("Arrival", .obj [("AirportCode", .str "JFK"),
          ("ScheduledTimeLocal", .obj [("DateTime", .str "2025-01-01T13:00")])]),
        ("OperatingCarrier", .obj [("AirlineID", .str "LH"), ("FlightNumber", .num 400)]),
        ("FlightStatus", .obj [("Status", .obj [("Description", .str "Flight Departed")])])]

/-! ## General lemmas -/

theorem exceptBind_ok {ε α β : Type} (a : α) (f : α → Except ε β) :
    (Except.ok a : Except ε α) >>= f = f a := rfl

/-! ## C1: non-200 statuses yield an empty flight list, without raising -/

/-- C1: for every HTTP response with status different from 200,
`get_flights` returns the empty list (an `.ok` value, so nothing is raised). -/
theorem get_flights_non200_empty (resp : HttpResponse) (h : resp.status ≠ 200) :
    get_flights resp = .ok (.arr []) := by
  simp [get_flights, h]

theorem get_flights_non200_empty_witness :
    (500 ≠ 200) ∧ get_flights ⟨500, none⟩ = .ok (.arr []) :=
  ⟨by decide, get_flights_non200_empty ⟨500, none⟩ (by decide)⟩

/-! ## C5: `get_token` on HTTP error statuses -/

/-- C5 counterexample: the claim says `get_token` never raises when the token
endpoint answers with an HTTP error status, yet on a 401 response whose body is the
JSON array `[]` the call `r.json().get("access_token")` raises `AttributeError`
(a list has no `.get`). -/
theorem get_token_error_status_raises_counterexample :
    (401 ≠ 200) ∧
      get_token ⟨401, some (.arr [])⟩ = .error .attributeError :=
  ⟨by decide, rfl⟩

/-- C5 amended: `get_token` never inspects the status; for every response whose
body is a JSON object — error statuses included — it returns (without raising) the
value of the `access_token` field, or an absent value when the field is missing. -/
theorem get_token_object_body_no_raise (status : Nat) (fs : List (String × Json)) :
    get_token ⟨status, some (.obj fs)⟩ = .ok (pyLookup fs "access_token") := rfl

/-! ## C6: 200 responses with the flight-list path missing -/

/-- C6: on an HTTP 200 response whose JSON object body is missing an intermediate
key of the path `FlightStatusResource` → `Flights` → `Flight` — at whichever of the
three levels — `get_flights` returns the empty list rather than an error. -/
theorem get_flights_missing_path_empty (fs : List (String × Json)) :
    (pyLookup fs "FlightStatusResource" = none →
        get_flights ⟨200, some (.obj fs)⟩ = .ok (.arr [])) ∧
    (∀ gs, pyLookup fs "FlightStatusResource" = some (.obj gs) →
        pyLookup gs "Flights" = none →
        get_flights ⟨200, some (.obj fs)⟩ = .ok (.arr [])) ∧
    (∀ gs hs, pyLookup fs "FlightStatusResource" = some (.obj gs) →
        pyLookup gs "Flights" = some (.obj hs) →
        pyLookup hs "Flight" = none →
        get_flights ⟨200, some (.obj fs)⟩ = .ok (.arr [])) := by
  refine ⟨fun h1 => ?_, fun gs h1 h2 => ?_, fun gs hs h1 h2 h3 => ?_⟩
  · simp [get_flights, jsonOf, exceptBind_ok, Json.getD, pyLookup, h1]
  · simp [get_flights, jsonOf, exceptBind_ok, Json.getD, pyLookup, h1, h2]
  · simp [get_flights, jsonOf, exceptBind_ok, Json.getD, pyLookup, h1, h2, h3]

theorem get_flights_missing_path_empty_witness :
    get_flights ⟨200, some (.obj [])⟩ = .ok (.arr []) :=
  (get_flights_missing_path_empty []).1 rfl

/-! ## C9: `get_airports` raises on a missing nested path -/

/-- C9: unlike `get_flights`, `get_airports` is intolerant of a missing nested
path: on a 200 response whose JSON object body lacks `AirportResource`, bracket
indexing raises `KeyError`, while `get_flights` on the same body returns the empty
list. -/
theorem get_airports_missing_key_raises :
    get_airports ⟨200, some (.obj [])⟩ = .error (.keyError "AirportResource") ∧
    get_flights ⟨200, some (.obj [])⟩ = .ok (.arr []) :=
  ⟨rfl, rfl⟩

/-! ## C3: the reshape of a complete flight record -/

/-- C3: for every flight record carrying all seven required nested fields, the
reshape succeeds (no error) and yields the row whose seven cells are, in order:
departure airport code, departure scheduled time, arrival airport code, arrival
scheduled time, operating carrier code, flight number, status description. -/
theorem reshapeFlight_total_seven_columns
    (f dep arr carrier stat sched1 sched2 stat2 : Json)
    (v1 v2 v3 v4 v5 v6 v7 : Json)
    (h1 : f.idx "Departure" = .ok dep)
    (h2 : dep.idx "AirportCode" = .ok v1)
    (h3 : dep.idx "ScheduledTimeLocal" = .ok sched1)
    (h4 : sched1.idx "DateTime" = .ok v2)
    (h5 : f.idx "Arrival" = .ok arr)
    (h6 : arr.idx "AirportCode" = .ok v3)
    (h7 : arr.idx "ScheduledTimeLocal" = .ok sched2)
    (h8 : sched2.idx "DateTime" = .ok v4)
    (h9 : f.idx "OperatingCarrier" = .ok carrier)
    (h10 : carrier.idx "AirlineID" = .ok v5)
    (h11 : carrier.idx "FlightNumber" = .ok v6)
    (h12 : f.idx "FlightStatus" = .ok stat)
    (h13 : stat.idx "Status" = .ok stat2)
    (h14 : stat2.idx "Description" = .ok v7) :
    reshapeFlight f = .ok ⟨v1, v2, v3, v4, v5, v6, v7⟩ ∧
    Row.cells ⟨v1, v2, v3, v4, v5, v6, v7⟩ = [v1, v2, v3, v4, v5, v6, v7] ∧
    displayColumns.length = 7 ∧ selectedColumns.length = 7 := by
  refine ⟨?_, rfl, rfl, rfl⟩
  simp [reshapeFlight, exceptBind_ok,
    h1, h2, h3, h4, h5, h6, h7, h8, h9, h10, h11, h12, h13, h14]

theorem reshapeFlight_total_seven_columns_witness :
    reshapeFlight sampleFlight =
      .ok ⟨.str "FRA", .str "2025-01-01T10:00", .str "JFK", .str "2025-01-01T13:00",
           .str "LH", .num 400, .str "Flight Departed"⟩ :=
  (reshapeFlight_total_seven_columns sampleFlight
    (.obj [("AirportCode", .str "FRA"),
           ("ScheduledTimeLocal", .obj [("DateTime", .str "2025-01-01T10:00")])])
    (.obj [("AirportCode", .str "JFK"),
           ("ScheduledTimeLocal", .obj [("DateTime", .str "2025-01-01T13:00")])])
    (.obj [("AirlineID", .str "LH"), ("FlightNumber", .num 400)])
    (.obj [("Status", .obj [("Description", .str "Flight Departed")])])
    (.obj [("DateTime", .str "2025-01-01T10:00")])
    (.obj [("DateTime", .str "2025-01-01T13:00")])
    (.obj [("Description", .str "Flight Departed")])
    (.str "FRA") (.str "2025-01-01T10:00") (.str "JFK") (.str "2025-01-01T13:00")
    (.str "LH") (.num 400) (.str "Flight Departed")
    rfl rfl rfl rfl rfl rfl rfl rfl rfl rfl rfl rfl rfl rfl).1

/-! ## C8: an empty flight list suppresses table, map and export -/

/-- C8: whenever `get_flights` returned the empty list, the render pass emits only
the informational notice: no table, no map, no CSV export, and neither the reshape
nor the route-building runs (the guard returns before them). -/
theorem empty_flights_render_notice (coords : CoordTable) (resp : HttpResponse)
    (_h : get_flights resp = .ok (.arr [])) :
    render_flight_section coords (.arr []) =
      .ok [.warningText "Aucun vol trouvé."] := by
  simp [render_flight_section, Json.pyFalsy]

theorem empty_flights_render_notice_witness :
    render_flight_section [] (.arr []) = .ok [.warningText "Aucun vol trouvé."] :=
  empty_flights_render_notice [] ⟨500, none⟩ rfl

/-! ## C4: token caching within the 300-second window -/

/-- C4: starting from an empty cache, a first `get_token` call that obtains a token
performs the network request and caches the value; a second call within the same
300-second window returns the cached value and performs no network request — one
request in total (the third component records whether the wrapped request ran). -/
theorem get_token_cached_one_request (resp : HttpResponse) (tok : Option Json)
    (t0 t1 : Nat) (hok : get_token resp = .ok tok)
    (_h01 : t0 ≤ t1) (h1 : t1 < t0 + 300) :
    (get_token_cached resp ⟨none⟩ t0).1 = .ok tok ∧
    (get_token_cached resp ⟨none⟩ t0).2.2 = true ∧
    (get_token_cached resp (get_token_cached resp ⟨none⟩ t0).2.1 t1).1 = .ok tok ∧
    (get_token_cached resp (get_token_cached resp ⟨none⟩ t0).2.1 t1).2.2 = false := by
  have e1 : get_token_cached resp ⟨none⟩ t0 = (.ok tok, ⟨some (tok, t0)⟩, true) := by
    simp [get_token_cached, cachedCall, hok]
  rw [e1]
  refine ⟨rfl, rfl, ?_, ?_⟩ <;> simp [get_token_cached, cachedCall, h1]

theorem get_token_cached_one_request_witness :
    (get_token_cached ⟨200, some (.obj [("access_token", .str "T")])⟩ ⟨none⟩ 0).1 =
        .ok (some (.str "T")) ∧
    (get_token_cached ⟨200, some (.obj [("access_token", .str "T")])⟩ ⟨none⟩ 0).2.2 =
        true ∧
    (get_token_cached ⟨200, some (.obj [("access_token", .str "T")])⟩
        (get_token_cached ⟨200, some (.obj [("access_token", .str "T")])⟩
          ⟨none⟩ 0).2.1 100).1 = .ok (some (.str "T")) ∧
    (get_token_cached ⟨200, some (.obj [("access_token", .str "T")])⟩
        (get_token_cached ⟨200, some (.obj [("access_token", .str "T")])⟩
          ⟨none⟩ 0).2.1 100).2.2 = false :=
  get_token_cached_one_request ⟨200, some (.obj [("access_token", .str "T")])⟩
    (some (.str "T")) 0 100 rfl (by decide) (by decide)

/-! ## C2: the coordinate table cache has a 24-hour TTL, not process lifetime -/

/-- C2 counterexample: the claim says the coordinate table is loaded exactly once
per process with no reload ever after the first, yet with a one-row `airports.csv`
a first call at time 0 loads the file and a call at time 200000 (more than 86400
seconds later) loads it again — the decorator is `st.cache_data(ttl=86400)`, not a
process-lifetime cache. -/
theorem get_coords_reload_counterexample :
    (get_coords_cached [⟨"CDG", 2, 49⟩] ⟨none⟩ 0).2.2 = true ∧
    (get_coords_cached [⟨"CDG", 2, 49⟩]
        (get_coords_cached [⟨"CDG", 2, 49⟩] ⟨none⟩ 0).2.1 200000).2.2 = true :=
  ⟨rfl, rfl⟩

/-- C2 amended: the coordinate table is cached for 86400 seconds.  Starting from an
empty cache, the first call loads the file; any call within 86400 seconds of it
returns the same table without reloading; a call at or after the expiry reloads the
file (and, the file being unchanged, returns the same table again). -/
theorem get_coords_cached_ttl_window (csv : List CsvRow) (t0 t1 t2 : Nat)
    (_h01 : t0 ≤ t1) (h1 : t1 < t0 + 86400) (h2 : t0 + 86400 ≤ t2) :
    (get_coords_cached csv ⟨none⟩ t0).1 = .ok (get_coords csv) ∧
    (get_coords_cached csv ⟨none⟩ t0).2.2 = true ∧
    (get_coords_cached csv (get_coords_cached csv ⟨none⟩ t0).2.1 t1).1 =
        .ok (get_coords csv) ∧
    (get_coords_cached csv (get_coords_cached csv ⟨none⟩ t0).2.1 t1).2.2 = false ∧
    (get_coords_cached csv (get_coords_cached csv ⟨none⟩ t0).2.1 t2).1 =
        .ok (get_coords csv) ∧
    (get_coords_cached csv (get_coords_cached csv ⟨none⟩ t0).2.1 t2).2.2 = true := by
  have e1 : get_coords_cached csv ⟨none⟩ t0 =
      (.ok (get_coords csv), ⟨some (get_coords csv, t0)⟩, true) := by
    simp [get_coords_cached, cachedCall]
  have h2n : ¬ t2 < t0 + 86400 := by omega
  rw [e1]
  refine ⟨rfl, rfl, ?_, ?_, ?_, ?_⟩ <;>
    simp [get_coords_cached, cachedCall, h1, h2n]

theorem get_coords_cached_ttl_window_witness :
    (get_coords_cached [⟨"CDG", 2, 49⟩] ⟨none⟩ 0).1 =
        .ok (get_coords [⟨"CDG", 2, 49⟩]) ∧
    (get_coords_cached [⟨"CDG", 2, 49⟩] ⟨none⟩ 0).2.2 = true ∧
    (get_coords_cached [⟨"CDG", 2, 49⟩]
        (get_coords_cached [⟨"CDG", 2, 49⟩] ⟨none⟩ 0).2.1 1).1 =
        .ok (get_coords [⟨"CDG", 2, 49⟩]) ∧
    (get_coords_cached [⟨"CDG", 2, 49⟩]
        (get_coords_cached [⟨"CDG", 2, 49⟩] ⟨none⟩ 0).2.1 1).2.2 = false ∧
    (get_coords_cached [⟨"CDG", 2, 49⟩]
        (get_coords_cached [⟨"CDG", 2, 49⟩] ⟨none⟩ 0).2.1 86400).1 =
        .ok (get_coords [⟨"CDG", 2, 49⟩]) ∧
    (get_coords_cached [⟨"CDG", 2, 49⟩]
        (get_coords_cached [⟨"CDG", 2, 49⟩] ⟨none⟩ 0).2.1 86400).2.2 = true :=
  get_coords_cached_ttl_window [⟨"CDG", 2, 49⟩] 0 1 86400
    (by decide) (by decide) (by decide)

/-! ## Python dict lemmas -/

section PyDictLemmas

variable {κ β : Type} [DecidableEq κ]

theorem pyLookup_pyDictInsert (d : List (κ × β)) (k k0 : κ) (v : β) :
    pyLookup (pyDictInsert d k v) k0 = if k = k0 then some v else pyLookup d k0 := by
  induction d with
  | nil => by_cases h : k = k0 <;> simp [pyDictInsert, pyLookup, h]
  | cons p d ih =>
      obtain ⟨k1, v1⟩ := p
      by_cases h1 : k1 = k <;> by_cases h2 : k = k0 <;>
        simp_all [pyDictInsert, pyLookup]

theorem pyLookup_append (l1 l2 : List (κ × β)) (k : κ) :
    pyLookup (l1 ++ l2) k =
      match pyLookup l1 k with
      | some v => some v
      | none => pyLookup l2 k := by
  induction l1 with
  | nil => simp [pyLookup]
  | cons p l1 ih =>
      obtain ⟨k1, v1⟩ := p
      by_cases h : k1 = k <;> simp [pyLookup, h, ih]

theorem pyLookup_foldl_insert (ps : List (κ × β)) :
    ∀ (d : List (κ × β)) (k : κ),
      pyLookup (ps.foldl (fun d p => pyDictInsert d p.1 p.2) d) k =
        match pyLookup ps.reverse k with
        | some v => some v
        | none => pyLookup d k := by
  induction ps with
  | nil => intro d k; simp [pyLookup]
  | cons p rest ih =>
      obtain ⟨k1, v1⟩ := p
      intro d k
      rw [List.foldl_cons, ih, List.reverse_cons, pyLookup_append]
      cases hr : pyLookup rest.reverse k with
      | some v => simp
      | none =>
          simp only []
          rw [pyLookup_pyDictInsert]
          by_cases h : k1 = k <;> simp [pyLookup, h]

theorem pyLookup_pyDict (ps : List (κ × β)) (k : κ) :
    pyLookup (pyDict ps) k = pyLookup ps.reverse k := by
  rw [pyDict, pyLookup_foldl_insert ps [] k]
  cases pyLookup ps.reverse k <;> simp [pyLookup]

theorem length_pyDictInsert_le (d : List (κ × β)) (k : κ) (v : β) :
    (pyDictInsert d k v).length ≤ d.length + 1 := by
  induction d with
  | nil => simp [pyDictInsert]
  | cons p d ih =>
      obtain ⟨k1, v1⟩ := p
      by_cases h : k1 = k
      · simp [pyDictInsert, h]
      · simp [pyDictInsert, h]
        omega

theorem length_foldl_insert_le (ps : List (κ × β)) :
    ∀ d : List (κ × β),
      (ps.foldl (fun d p => pyDictInsert d p.1 p.2) d).length ≤ d.length + ps.length := by
  induction ps with
  | nil => intro d; simp
  | cons p rest ih =>
      intro d
      rw [List.foldl_cons]
      have h1 := ih (pyDictInsert d p.1 p.2)
      have h2 := length_pyDictInsert_le d p.1 p.2
      simp only [List.length_cons]
      omega

theorem length_pyDict_le (ps : List (κ × β)) : (pyDict ps).length ≤ ps.length := by
  have h := length_foldl_insert_le ps []
  simpa [pyDict] using h

end PyDictLemmas

/-! ## C10: duplicate display names in the airport directory -/

theorem extractAirports_mkAirportRec (rs : List (String × String)) :
    extractAirports (rs.map mkAirportRec) = .ok (airportPairs rs) := by
  induction rs with
  | nil => rfl
  | cons p rest ih =>
      obtain ⟨nm, code⟩ := p
      simp only [List.map_cons, extractAirports, airportPairs]
      rw [show extractAirport (mkAirportRec (nm, code)) = .ok (nm, .str code) from rfl]
      rw [exceptBind_ok, ih]
      rfl

/-- C10: for a reference response whose records carry the given (name, code) pairs,
`get_airports` builds the dict of those pairs, a name looks up to the code of the
*last* record carrying it (lookup of the dict equals first-match lookup of the
reversed pair list), the directory never has more entries than the response has
records, and on a concrete response with two records sharing one name the directory
is the single entry holding the second code. -/
theorem get_airports_last_duplicate_wins (rs : List (String × String)) (nm : String) :
    get_airports (mkAirportsResp rs) = .ok (pyDict (airportPairs rs)) ∧
    pyLookup (pyDict (airportPairs rs)) nm = pyLookup (airportPairs rs).reverse nm ∧
    (pyDict (airportPairs rs)).length ≤ rs.length ∧
    get_airports (mkAirportsResp [("Same", "AAA"), ("Same", "BBB")]) =
      .ok [("Same", .str "BBB")] := by
  refine ⟨?_, pyLookup_pyDict _ _, ?_, rfl⟩
  · simp [get_airports, mkAirportsResp, jsonOf, Json.idx, Json.pyIter, pyLookup,
      exceptBind_ok, extractAirports_mkAirportRec]
  · have h := length_pyDict_le (airportPairs rs)
    simpa [airportPairs] using h

/-! ## C7: route-building refines its specification -/

theorem show_map_routes_eq_spec (coords : CoordTable) :
    ∀ rows : List Row,
      (∀ r ∈ rows, r.depart.hashableKey = true ∧ r.arrivee.hashableKey = true) →
      show_map_routes coords rows = .ok (routeSegmentsSpec coords rows) := by
  intro rows
  induction rows with
  | nil => intro _; rfl
  | cons r rest ih =>
      intro h
      obtain ⟨hd, ha⟩ := h r (List.mem_cons_self r rest)
      have ihr := ih (fun x hx => h x (List.mem_cons_of_mem _ hx))
      cases hcd : coordLookup coords r.depart with
      | none =>
          simp [show_map_routes, rowRoute, hd, hcd, ihr, exceptBind_ok,
            routeSegmentsSpec, List.filter_cons]
      | some dpt =>
          cases hca : coordLookup coords r.arrivee with
          | none =>
              simp [show_map_routes, rowRoute, hd, ha, hcd, hca, ihr, exceptBind_ok,
                routeSegmentsSpec, List.filter_cons]
          | some apt =>
              simp [show_map_routes, rowRoute, hd, ha, hcd, hca, ihr, exceptBind_ok,
                routeSegmentsSpec, List.filter_cons]

/-- C7: over rows whose endpoint cells are hashable (every real code is a string),
the route loop raises nothing and produces exactly the spec-side segments: one
segment per row both of whose codes have coordinate entries — none for any other
row — with both (longitude, latitude) pairs copied verbatim from the table; and the
label of a row whose carrier and flight cells are the strings `c` and `v` is
`c ++ " " ++ v` (the two concatenated with a single space). -/
theorem show_map_routes_refines_spec (coords : CoordTable) (rows : List Row)
    (h : ∀ r ∈ rows, r.depart.hashableKey = true ∧ r.arrivee.hashableKey = true) :
    show_map_routes coords rows = .ok (routeSegmentsSpec coords rows) ∧
    (∀ (r : Row) (c v : String), r.compagnie = .str c → r.vol = .str v →
        flightLabel r = c ++ " " ++ v) := by
  refine ⟨show_map_routes_eq_spec coords rows h, ?_⟩
  intro r c v hc hv
  simp [flightLabel, hc, hv, Json.pyStr]

theorem show_map_routes_refines_spec_witness :
    show_map_routes [("CDG", (2, 49)), ("JFK", (-74, 40))]
      [⟨.str "CDG", .str "10:00", .str "JFK", .str "13:00",
          .str "LH", .str "400", .str "Departed"⟩,
       ⟨.str "CDG", .str "11:00", .str "XXX", .str "14:00",
          .str "LH", .str "401", .str "Departed"⟩] =
      .ok (routeSegmentsSpec [("CDG", (2, 49)), ("JFK", (-74, 40))]
        [⟨.str "CDG", .str "10:00", .str "JFK", .str "13:00",
            .str "LH", .str "400", .str "Departed"⟩,
         ⟨.str "CDG", .str "11:00", .str "XXX", .str "14:00",
            .str "LH", .str "401", .str "Departed"⟩]) :=
  (show_map_routes_refines_spec [("CDG", (2, 49)), ("JFK", (-74, 40))]
    [⟨.str "CDG", .str "10:00", .str "JFK", .str "13:00",
        .str "LH", .str "400", .str "Departed"⟩,
     ⟨.str "CDG", .str "11:00", .str "XXX", .str "14:00",
        .str "LH", .str "401", .str "Departed"⟩]
    (by
      intro r hr
      simp only [List.mem_cons, List.not_mem_nil, or_false] at hr
      rcases hr with rfl | rfl <;> exact ⟨rfl, rfl⟩)).1

end AppLufthansa
